import Mathlib

/-
Verification of the twallet issuer client (main.go).

The development shallowly embeds the pure decision logic of the three
remote operations (CreateVCItem, CreateVCItemData, GetVCItemData) and the
activation-polling loop spawned by CreateVCItemData.  The transport layer,
JSON byte-level codec, content-type sniffing and logging are external
collaborators of the program; they appear here as parameters (a decode
outcome, a status code, a detect oracle) exactly at the interface boundary
the program uses them through.
-/

namespace Twallet

/-! ## JSON values as decoded by encoding/json into map[string]interface\x7b\x7d -/

/-- A decoded JSON value, as Go produces for an `interface` target:
JSON null becomes the nil interface, objects become string-keyed maps. -/
inductive JsonValue where
  | null
  | bool (b : Bool)
  | num (n : Int)
  | str (s : String)
  | arr (elems : List JsonValue)
  | obj (entries : List (String × JsonValue))
deriving Repr

/-- Go map indexing `m[k]` on a decoded `map[string]interface` value:
a missing key yields the zero value (nil interface), and a JSON `null`
entry also decodes to the nil interface, so both are `JsonValue.null`. -/
def lookupGo : List (String × JsonValue) → String → JsonValue
  | [], _ => .null
  | (k, v) :: rest, key => if k = key then v else lookupGo rest key

mutual

/-- Formatting of a decoded value by the `%v` verb of Go fmt, as used in
`fmt.Errorf("unexpected response code: %v", responseBody["detail"])`:
a nil interface prints as `<nil>`, a string prints verbatim, numbers and
booleans print their usual textual form, slices print space-separated in
brackets and maps entry-wise as `map[k:v ...]` (entries in stored order;
Go sorts map keys, which coincides for the bodies considered here). -/
def goFormat : JsonValue → String
  | .null => "<nil>"
  | .bool true => "true"
  | .bool false => "false"
  | .num n => toString n
  | .str s => s
  | .arr elems => "[" ++ String.intercalate " " (goFormatList elems) ++ "]"
  | .obj entries => "map[" ++ String.intercalate " " (goFormatEntries entries) ++ "]"

/-- Formatting of each element of a decoded JSON array, for `goFormat`. -/
def goFormatList : List JsonValue → List String
  | [] => []
  | v :: rest => goFormat v :: goFormatList rest

/-- Formatting of each entry of a decoded JSON object, for `goFormat`. -/
def goFormatEntries : List (String × JsonValue) → List String
  | [] => []
  | (k, v) :: rest => (k ++ ":" ++ goFormat v) :: goFormatEntries rest

end

/-! ## Substring containment, used to state that an error message carries
the server detail text -/

/-- Whether the list `sub` occurs at the head of `hay`. -/
def charsStartWith : List Char → List Char → Bool
  | _, [] => true
  | [], _ :: _ => false
  | a :: as, b :: bs => a = b && charsStartWith as bs

/-- Whether the list `sub` occurs contiguously anywhere inside `hay`. -/
def charsContain : List Char → List Char → Bool
  | [], sub => sub.isEmpty
  | hay@(_ :: rest), sub => charsStartWith hay sub || charsContain rest sub

/-- Whether the string `sub` occurs contiguously inside the string `hay`. -/
def strContains (hay sub : String) : Bool :=
  charsContain hay.data sub.data

/-! ## Response handling of the three operations (main.go lines 108-117,
160-167, 235-248).  Each operation first decodes the body into the generic
envelope and only then checks the status code; the decode outcome supplied
by the codec collaborator is an `Except` carrying the decode error text. -/

/-- Outcome of the response phase of CreateVCItem (main.go lines 108-117):
decode the body into a generic map, fail with a decode error if that
fails, then require status 201 Created, otherwise build the error from the
`detail` entry of the decoded envelope via the `%v` formatting. -/
def createVCItemHandleResponse (status : Nat)
    (decoded : Except String (List (String × JsonValue))) : Except String Unit :=
  match decoded with
  | .error e => .error ("failed to decode response body: " ++ e)
  | .ok responseBody =>
    if status ≠ 201 then
      .error ("unexpected response code: " ++ goFormat (lookupGo responseBody "detail"))
    else
      .ok ()

/-- Outcome of the generic-envelope response phase of CreateVCItemData
(main.go lines 160-167): unmarshal the body bytes into a generic map, fail
with an unmarshal error if that fails, then require status 201 Created,
otherwise build the error from the `detail` entry via `%v` formatting.
The subsequent typed unmarshal and poller spawn are modelled separately. -/
def createVCItemDataHandleResponse (status : Nat)
    (decoded : Except String (List (String × JsonValue))) : Except String Unit :=
  match decoded with
  | .error e => .error ("failed to unmarshal response body: " ++ e)
  | .ok response =>
    if status ≠ 201 then
      .error ("unexpected response code: " ++ goFormat (lookupGo response "detail"))
    else
      .ok ()

/-- Result of GetVCItemData as observable by its caller: a normal return
with the vcCid string, an error return, or a runtime panic raised by the
unchecked type assertion `responseBody["vcCid"].(string)`. -/
inductive GetVCItemDataResult where
  | ok (vcCid : String)
  | err (msg : String)
  | panics
deriving DecidableEq, Repr

/-- Outcome of the response phase of GetVCItemData (main.go lines
235-248): decode the body into a generic map, fail with a decode error if
that fails, require status 200 OK, then read `responseBody["vcCid"]`: a
nil interface (absent key or JSON null) returns the empty string with no
error; otherwise the value is type-asserted to string, which yields the
string when it is one and panics on any other value, per Go semantics of
an unchecked assertion. -/
def getVCItemDataHandleResponse (status : Nat)
    (decoded : Except String (List (String × JsonValue))) : GetVCItemDataResult :=
  match decoded with
  | .error e => .err ("failed to decode response body: " ++ e)
  | .ok responseBody =>
    if status ≠ 200 then
      .err ("unexpected response code: " ++ goFormat (lookupGo responseBody "detail"))
    else
      match lookupGo responseBody "vcCid" with
      | .null => .ok ""
      | .str s => .ok s
      | _ => .panics

/-! ## Request payload of CreateVCItem (main.go lines 65-87) -/

/-- A template field, as in the Field struct of main.go (JSON keys type,
cname, ename, regularExpressionId, cardCoverData). -/
structure Field where
  type : String
  cname : String
  ename : String
  regularExpressionId : Int
  cardCoverData : Int
deriving Repr

/-- JSON encoding of a Field value, per its struct tags. -/
def fieldToJson (f : Field) : JsonValue :=
  .obj [("type", .str f.type), ("cname", .str f.cname), ("ename", .str f.ename),
        ("regularExpressionId", .num f.regularExpressionId),
        ("cardCoverData", .num f.cardCoverData)]

/-- Character of the standard base64 alphabet at a sextet index. -/
def base64Char (n : Nat) : Char :=
  "ABCDEFGHIJKLMNOPQRSTUVWXYZabcdefghijklmnopqrstuvwxyz0123456789+/".data.getD n '='

/-- The standard base64 encoding `base64.StdEncoding.EncodeToString` of a
byte sequence: groups of three octets become four alphabet characters,
with `=` padding for a trailing group of one or two octets. -/
def base64StdEncode : List Nat → String
  | [] => ""
  | [a] =>
    String.mk [base64Char (a / 4 % 64), base64Char (a % 4 * 16), '=', '=']
  | [a, b] =>
    String.mk [base64Char (a / 4 % 64), base64Char (a % 4 * 16 + b / 16 % 16),
               base64Char (b % 16 * 4), '=']
  | a :: b :: c :: rest =>
    String.mk [base64Char (a / 4 % 64), base64Char (a % 4 * 16 + b / 16 % 16),
               base64Char (b % 16 * 4 + c / 64 % 4), base64Char (c % 64)]
      ++ base64StdEncode rest

/-- The outbound request payload assembled by CreateVCItem (main.go lines
67-87) as a key-value map: the seven fixed entries, plus a `cover` entry
holding a base64 data URI when a cover is supplied and the content-type
sniffer (the `detect` collaborator, `http.DetectContentType` in the
program) reports image/jpeg or image/png; any other sniffed type only
logs a warning and adds no entry.  The expiry unit is the string value of
the ExpireUnitType argument. -/
def buildCreateVCItemPayload (detect : List Nat → String)
    (serialNo name expireNum expireUnit : String) (expose : Bool)
    (fields : List Field) (cover : Option (List Nat)) :
    List (String × JsonValue) :=
  let requestPayload : List (String × JsonValue) :=
    [("serialNo", .str serialNo), ("name", .str name), ("category", .num 4),
     ("expose", .bool expose), ("lengthExpire", .str expireNum),
     ("unitTypeExpire", .str expireUnit),
     ("vcItemFieldDTOList", .arr (fields.map fieldToJson))]
  match cover with
  | none => requestPayload
  | some bytes =>
    let mimeType := detect bytes
    let base64EncodedCover := base64StdEncode bytes
    if mimeType = "image/jpeg" then
      requestPayload ++ [("cover", .str ("data:image/jpeg;base64," ++ base64EncodedCover))]
    else if mimeType = "image/png" then
      requestPayload ++ [("cover", .str ("data:image/png;base64," ++ base64EncodedCover))]
    else
      requestPayload

/-! ## The activation poller of CreateVCItemData (main.go lines 174-211).

When a completion callback is supplied, the function sets up a countdown
of 300 seconds, a ticker firing every 5 seconds, a deferred ticker stop,
and a goroutine that waits in select for ticks.  On each delivered tick
the goroutine first checks whether the countdown is already exhausted
(stop, timed out), otherwise subtracts 5 seconds, performs one
GetVCItemData fetch, and acts on the result: an error ends the session,
a non-empty vcCid invokes the completion callback once and ends the
session, an empty vcCid waits for the next tick.  The fetch outcomes are
supplied by an oracle indexed by tick number, standing for the network
collaborator.

The `defer ticker.Stop()` at line 177 is scoped to CreateVCItemData
itself, not to the goroutine: it runs when the function returns at line
211, immediately after the goroutine is spawned, while the ticker would
deliver its first tick only five seconds after creation.  The ticker is
therefore stopped before it delivers anything, and a session that has
processed every delivered tick without reaching a terminal state stays
blocked in select: still Running, no further fetches, no callback. -/

/-- Outcome of one status fetch as seen by the polling loop: either
GetVCItemData returned an error, or it returned a vcCid string (possibly
empty, meaning not yet activated). -/
inductive FetchResult where
  | err
  | ok (vcCid : String)
deriving DecidableEq, Repr

/-- State of the polling session, per the spec state machine.  Running is
also the state of a goroutine blocked in select with no tick to come. -/
inductive PollerState where
  | Running
  | Activated
  | TimedOut
  | Failed
deriving DecidableEq, Repr

/-- Observable outcome of a polling session: how many status fetches it
performed, the state it is left in, and the list of completion-callback
invocations in order (each with its vcCid argument). -/
structure PollOutcome where
  fetches : Nat
  state : PollerState
  callbacks : List String
deriving DecidableEq, Repr

/-- Number of ticks the ticker delivers to the polling goroutine.  A new
5-second ticker delivers its first tick five seconds after creation, but
the function-scoped `defer ticker.Stop()` (line 177) runs at the return
of CreateVCItemData (line 211), directly after the goroutine is spawned
and long before that first delivery, and a stopped ticker delivers
nothing: zero ticks reach the goroutine. -/
def deliveredTicks : Nat := 0

/-- Run of the goroutine loop body (main.go lines 180-207) over the ticks
the ticker actually delivers, from a given tick index and remaining
countdown: on each delivered tick, if the countdown is already `≤ 0` the
session ends timed out with no further fetch; otherwise the countdown
drops by 5 and the fetch for this tick runs — an error ends the session
Failed, a non-empty vcCid invokes the callback and ends the session
Activated, an empty vcCid waits for the next tick.  When no further tick
is delivered the goroutine stays blocked in select: the session is left
Running with the fetches and callbacks accumulated so far. -/
def pollBounded (fetch : Nat → FetchResult) : Nat → Nat → Int → PollOutcome
  | 0, _, _ => ⟨0, .Running, []⟩
  | delivered + 1, tick, timeout =>
    if timeout ≤ 0 then
      ⟨0, .TimedOut, []⟩
    else
      match fetch tick with
      | .err => ⟨1, .Failed, []⟩
      | .ok vcCid =>
        if vcCid = "" then
          let o := pollBounded fetch delivered (tick + 1) (timeout - 5)
          ⟨o.fetches + 1, o.state, o.callbacks⟩
        else
          ⟨1, .Activated, [vcCid]⟩

/-- The polling session as CreateVCItemData actually runs it when a
completion callback is supplied: countdown 300 seconds, ticks numbered
from 0, and only the ticks delivered before the deferred ticker stop are
processed. -/
def createVCItemDataSession (fetch : Nat → FetchResult) : PollOutcome :=
  pollBounded fetch deliveredTicks 0 300

/-- A simulated fetch sequence: empty for the first three ticks, then a
fixed non-empty activation id, mirroring the activation scenario of the
spec. -/
def specActivationFetch : Nat → FetchResult :=
  fun n => if n < 3 then .ok "" else .ok "vc-cid-1"

/-- A simulated fetch sequence that errors on the second tick, mirroring
the failure scenario of the spec. -/
def specErrorFetch : Nat → FetchResult :=
  fun n => if n = 1 then .err else .ok ""

/-- C1: the claim says a session whose status fetches all return an
empty activation id performs exactly 60 fetch attempts and transitions
to TimedOut.  The code diverges: the deferred ticker stop runs at the
return of CreateVCItemData, before the first tick, so even under the
always-empty fetch scenario of the claim the session performs zero fetch
attempts, is left Running (blocked in select) rather than TimedOut, and
never invokes the callback. -/
theorem poller_always_empty_never_fetches :
    createVCItemDataSession (fun _ => .ok "") = ⟨0, .Running, []⟩ ∧
    createVCItemDataSession (fun _ => .ok "") ≠ ⟨60, .TimedOut, []⟩ :=
  ⟨rfl, by decide⟩

/-- C2: the claim says a status fetch returning a non-empty activation
id leads to exactly one callback invocation with that id.  The code
diverges: no tick is ever delivered, so even under the activation
scenario of the spec (empty for three ticks, then a fixed id) the
session performs no fetch, never observes the id, and never invokes the
callback — although the doc comment of CreateVCItemData promises the
vcCid through the callback after scanning. -/
theorem poller_activation_scenario_never_fetches :
    createVCItemDataSession specActivationFetch = ⟨0, .Running, []⟩ ∧
    (createVCItemDataSession specActivationFetch).callbacks = [] :=
  ⟨rfl, rfl⟩

/-- C3: the claim says a status fetch error makes the session transition
to Failed after that tick.  The code diverges: no tick is ever
delivered, so under the failure scenario of the spec (an error on the
second tick) neither the first nor the second fetch ever happens and the
session never reaches Failed — it stays blocked in select. -/
theorem poller_error_scenario_never_fetches :
    createVCItemDataSession specErrorFetch = ⟨0, .Running, []⟩ ∧
    (createVCItemDataSession specErrorFetch).state ≠ .Failed :=
  ⟨rfl, by decide⟩

/-! ## Supporting lemmas on string containment and map lookup -/

theorem data_append_eq (a b : String) : (a ++ b).data = a.data ++ b.data := by
  cases a; cases b; rfl

theorem charsStartWith_refl (xs : List Char) : charsStartWith xs xs = true := by
  induction xs with
  | nil => rfl
  | cons a as ih => simp [charsStartWith, ih]

theorem charsContain_append_left (l s : List Char) : charsContain (l ++ s) s = true := by
  induction l with
  | nil =>
    cases s with
    | nil => rfl
    | cons a as => simp [charsContain, charsStartWith_refl]
  | cons c l ih => simp [charsContain, ih]

theorem strContains_append_left (pre s : String) : strContains (pre ++ s) s = true := by
  unfold strContains
  rw [data_append_eq]
  exact charsContain_append_left _ _

theorem lookupGo_all_null (body : List (String × JsonValue)) (key : String)
    (h : ∀ v, (key, v) ∈ body → v = .null) : lookupGo body key = .null := by
  induction body with
  | nil => rfl
  | cons kv rest ih =>
    obtain ⟨k, v⟩ := kv
    by_cases hk : k = key
    · subst hk
      show (if k = k then v else lookupGo rest k) = .null
      rw [if_pos rfl]
      exact h v (List.mem_cons_self _ _)
    · show (if k = key then v else lookupGo rest key) = .null
      rw [if_neg hk]
      exact ih (fun v hv => h v (List.mem_cons_of_mem _ hv))

/-! ## The claims on the operations -/

/-- C4 (amended): for every response to template or instance creation
whose status is not 201 and whose body decodes, the operation returns the
error built from the `%v` formatting of the `detail` entry: when `detail`
is a string it appears verbatim inside the error; when no `detail` entry
exists (the lookup yields the nil interface) the error is the fixed string
`unexpected response code: <nil>` — the nil placeholder, not the whole
decoded envelope. -/
theorem creation_error_detail_amended (status : Nat) (body : List (String × JsonValue))
    (hstatus : status ≠ 201) :
    (∀ s, lookupGo body "detail" = .str s →
      createVCItemHandleResponse status (.ok body)
          = .error ("unexpected response code: " ++ s) ∧
      createVCItemDataHandleResponse status (.ok body)
          = .error ("unexpected response code: " ++ s) ∧
      strContains ("unexpected response code: " ++ s) s = true)
    ∧ (lookupGo body "detail" = .null →
      createVCItemHandleResponse status (.ok body)
          = .error "unexpected response code: <nil>" ∧
      createVCItemDataHandleResponse status (.ok body)
          = .error "unexpected response code: <nil>") := by
  constructor
  · intro s hs
    refine ⟨?_, ?_, strContains_append_left "unexpected response code: " s⟩ <;>
      simp [createVCItemHandleResponse, createVCItemDataHandleResponse, hstatus, hs, goFormat]
  · intro hnull
    constructor <;>
      simp [createVCItemHandleResponse, createVCItemDataHandleResponse, hstatus, hnull, goFormat]

theorem creation_error_detail_amended_witness :
    createVCItemHandleResponse 400 (.ok [("detail", .str "boom")])
        = .error ("unexpected response code: " ++ "boom") ∧
    createVCItemDataHandleResponse 400 (.ok [("detail", .str "boom")])
        = .error ("unexpected response code: " ++ "boom") ∧
    strContains ("unexpected response code: " ++ "boom") "boom" = true :=
  (creation_error_detail_amended 400 [("detail", .str "boom")] (by decide)).1 "boom" rfl

/-- C4 fails as stated: for a 400 response whose decoded envelope is the
single entry message=boom with no `detail` entry, the creation error is
exactly `unexpected response code: <nil>`; it does not contain the
envelope — not even the value `boom` of its only entry occurs in it. -/
theorem creation_error_missing_detail_counterexample :
    createVCItemHandleResponse 400 (.ok [("message", .str "boom")])
        = .error "unexpected response code: <nil>"
    ∧ strContains "unexpected response code: <nil>" "boom" = false :=
  ⟨rfl, rfl⟩

/-- C5: for a 200 OK status-fetch response whose decoded body has no
vcCid entry or has it explicitly null (both decode to the nil interface),
GetVCItemData returns the empty string and no error — the normal
not-yet-activated result. -/
theorem getVCItemData_absent_vcCid_ok (body : List (String × JsonValue))
    (h : ∀ v, ("vcCid", v) ∈ body → v = .null) :
    getVCItemDataHandleResponse 200 (.ok body) = .ok "" := by
  have hl : lookupGo body "vcCid" = .null := lookupGo_all_null body "vcCid" h
  simp [getVCItemDataHandleResponse, hl]

theorem getVCItemData_absent_vcCid_ok_witness :
    getVCItemDataHandleResponse 200 (.ok [("id", .num 3)]) = .ok "" :=
  getVCItemData_absent_vcCid_ok [("id", .num 3)] (fun v hv => by simp at hv)

/-- C6: for a non-nil cover whose detected content type is image/jpeg or
image/png, the outbound payload carries a `cover` entry equal to
`data:` followed by the detected type, `;base64,` and the standard base64
encoding of exactly the supplied cover bytes. -/
theorem createVCItem_cover_data_uri (detect : List Nat → String)
    (serialNo name expireNum expireUnit : String) (expose : Bool)
    (fields : List Field) (bytes : List Nat)
    (h : detect bytes = "image/jpeg" ∨ detect bytes = "image/png") :
    lookupGo (buildCreateVCItemPayload detect serialNo name expireNum expireUnit expose
        fields (some bytes)) "cover"
      = .str ("data:" ++ detect bytes ++ ";base64," ++ base64StdEncode bytes) := by
  rcases h with h | h <;>
    simp [buildCreateVCItemPayload, lookupGo, h]

theorem createVCItem_cover_data_uri_witness :
    lookupGo (buildCreateVCItemPayload (fun _ => "image/jpeg") "sn" "n" "1" "DAY" false
        [] (some [1, 2, 3])) "cover" = .str "data:image/jpeg;base64,AQID" := by
  rw [createVCItem_cover_data_uri (fun _ => "image/jpeg") "sn" "n" "1" "DAY" false [] [1, 2, 3]
    (Or.inl rfl)]
  rfl

/-- C7: for a non-nil cover whose detected content type is neither
image/jpeg nor image/png, the outbound payload has no `cover` entry and is
exactly the payload that would be built with no cover at all, so the
mismatch (which the program only logs) changes nothing the operation
later acts on and never produces an error. -/
theorem createVCItem_unsupported_cover_omitted (detect : List Nat → String)
    (serialNo name expireNum expireUnit : String) (expose : Bool)
    (fields : List Field) (bytes : List Nat)
    (hjpeg : detect bytes ≠ "image/jpeg") (hpng : detect bytes ≠ "image/png") :
    (∀ v, ("cover", v) ∈ buildCreateVCItemPayload detect serialNo name expireNum expireUnit
        expose fields (some bytes) → False)
    ∧ buildCreateVCItemPayload detect serialNo name expireNum expireUnit expose fields
        (some bytes)
      = buildCreateVCItemPayload detect serialNo name expireNum expireUnit expose fields
        none := by
  constructor
  · intro v hv
    simp [buildCreateVCItemPayload, hjpeg, hpng] at hv
  · simp [buildCreateVCItemPayload, hjpeg, hpng]

theorem createVCItem_unsupported_cover_omitted_witness :
    (∀ v, ("cover", v) ∈ buildCreateVCItemPayload (fun _ => "image/gif") "sn" "n" "1" "DAY"
        false [] (some [9]) → False)
    ∧ buildCreateVCItemPayload (fun _ => "image/gif") "sn" "n" "1" "DAY" false [] (some [9])
      = buildCreateVCItemPayload (fun _ => "image/gif") "sn" "n" "1" "DAY" false [] none :=
  createVCItem_unsupported_cover_omitted (fun _ => "image/gif") "sn" "n" "1" "DAY" false [] [9]
    (by decide) (by decide)

/-- C8: in each of the three operations, a body that fails to decode into
the generic envelope yields the decode-failure error carrying the decode
reason, for every status code — including the success codes 201 and 200 —
because decoding is checked before the status code. -/
theorem decode_failure_before_status_check (status : Nat) (e : String) :
    createVCItemHandleResponse status (.error e)
        = .error ("failed to decode response body: " ++ e)
    ∧ createVCItemDataHandleResponse status (.error e)
        = .error ("failed to unmarshal response body: " ++ e)
    ∧ getVCItemDataHandleResponse status (.error e)
        = .err ("failed to decode response body: " ++ e) :=
  ⟨rfl, rfl, rfl⟩

/-- The bound stated by the spec for the expiry length: a string of at
most 4 decimal digits. -/
def atMostFourDecimalDigits (s : String) : Bool :=
  s.length ≤ 4 && s.data.all Char.isDigit

/-- C9 fails as stated: CreateVCItem performs no validation of expireNum,
so the five-digit input 12345 is placed verbatim under lengthExpire in
the outbound payload even though it is not a string of at most 4 decimal
digits — a violating input reaches the wire unchecked. -/
theorem lengthExpire_unchecked_counterexample :
    lookupGo (buildCreateVCItemPayload (fun _ => "") "sn" "n" "12345" "DAY" false [] none)
        "lengthExpire" = .str "12345"
    ∧ atMostFourDecimalDigits "12345" = false :=
  ⟨rfl, rfl⟩

/-- C9 (amended): the expiry length is placed verbatim in the outbound
payload under lengthExpire for every input; the at-most-4-decimal-digits
bound is only a documented caller obligation, never checked by the code,
so violating inputs reach the wire unchanged. -/
theorem lengthExpire_verbatim_amended (detect : List Nat → String)
    (serialNo name expireNum expireUnit : String) (expose : Bool)
    (fields : List Field) (cover : Option (List Nat)) :
    lookupGo (buildCreateVCItemPayload detect serialNo name expireNum expireUnit expose
        fields cover) "lengthExpire" = .str expireNum := by
  cases cover with
  | none => simp [buildCreateVCItemPayload, lookupGo]
  | some bytes =>
    by_cases h1 : detect bytes = "image/jpeg"
    · simp [buildCreateVCItemPayload, lookupGo, h1]
    · by_cases h2 : detect bytes = "image/png"
      · simp [buildCreateVCItemPayload, lookupGo, h1, h2]
      · simp [buildCreateVCItemPayload, lookupGo, h1, h2]

/-- C10: for a 200 OK status-fetch response whose decoded body binds
vcCid to a non-null value that is not a JSON string, GetVCItemData panics
through the unchecked type assertion instead of returning an error, and a
normal return happens only when vcCid is absent, null, or a string (the
returned string being that value, or empty when absent or null). -/
theorem getVCItemData_nonstring_vcCid_panics (body : List (String × JsonValue)) :
    ((lookupGo body "vcCid" ≠ .null ∧ ∀ s, lookupGo body "vcCid" ≠ .str s) →
      getVCItemDataHandleResponse 200 (.ok body) = .panics)
    ∧ (∀ r, getVCItemDataHandleResponse 200 (.ok body) = .ok r →
        lookupGo body "vcCid" = .null ∨ lookupGo body "vcCid" = .str r) := by
  constructor
  · rintro ⟨hnull, hstr⟩
    cases hv : lookupGo body "vcCid" with
    | null => exact absurd hv hnull
    | str s => exact absurd hv (hstr s)
    | bool b => simp [getVCItemDataHandleResponse, hv]
    | num n => simp [getVCItemDataHandleResponse, hv]
    | arr elems => simp [getVCItemDataHandleResponse, hv]
    | obj entries => simp [getVCItemDataHandleResponse, hv]
  · intro r hr
    cases hv : lookupGo body "vcCid" with
    | null => exact Or.inl rfl
    | str s =>
      simp [getVCItemDataHandleResponse, hv] at hr
      exact Or.inr (by rw [hr])
    | bool b => simp [getVCItemDataHandleResponse, hv] at hr
    | num n => simp [getVCItemDataHandleResponse, hv] at hr
    | arr elems => simp [getVCItemDataHandleResponse, hv] at hr
    | obj entries => simp [getVCItemDataHandleResponse, hv] at hr

theorem getVCItemData_nonstring_vcCid_panics_witness :
    getVCItemDataHandleResponse 200 (.ok [("vcCid", .num 7)]) = .panics :=
  (getVCItemData_nonstring_vcCid_panics [("vcCid", .num 7)]).1
    ⟨by simp [lookupGo], fun s => by simp [lookupGo]⟩

end Twallet
